import Mathlib

/-!
Verification of the music-dl protected-stream pipeline (`music_dl.py`).

Python strings are modelled as Lean `String`; the Python operations the
code uses (`strip`, `lower`, `startswith`, `splitlines`, concatenation,
`re.search` for the three fixed patterns) are given explicit executable
definitions over the character list.  Network and subprocess effects are
modelled by explicit environments recording the outcome of each external
call; exceptions are modelled with `Except`/`Option`.
-/

/-- The error conditions the pipeline can raise (Python exceptions). -/
inductive PyErr where
  | transportError
  | httpError
  | manifestError
  | psshError
  | challengeError
  | parseError
  | noContentKey
  | invalidKeyFormat
  | decryptionFailed
deriving DecidableEq, Repr

/-- Python whitespace characters relevant to `str.strip`. -/
def pySpace (c : Char) : Bool :=
  c = ' ' || c = '\t' || c = '\n' || c = '\r' || c = '\x0b' || c = '\x0c'

/-- Python `s.strip()`: drop leading and trailing whitespace. -/
def pyStrip (s : String) : String :=
  ⟨((s.data.dropWhile pySpace).reverse.dropWhile pySpace).reverse⟩

/-- Python `s.lower()` (ASCII). -/
def pyLower (s : String) : String := ⟨s.data.map Char.toLower⟩

/-- Python string concatenation / f-string splicing. -/
def pyConcat (a b : String) : String := ⟨a.data ++ b.data⟩

/-- Python `s.startswith(p)`. -/
def pyStartswith (s p : String) : Bool := p.data.isPrefixOf s.data

/-- Helper for Python `str.splitlines` (splits on LF, CR, CRLF). -/
def splitlinesAux : List Char → List Char → List String
  | [], [] => []
  | [], acc => [⟨acc.reverse⟩]
  | '\r' :: '\n' :: t, acc => ⟨acc.reverse⟩ :: splitlinesAux t []
  | '\r' :: t, acc => ⟨acc.reverse⟩ :: splitlinesAux t []
  | '\n' :: t, acc => ⟨acc.reverse⟩ :: splitlinesAux t []
  | c :: t, acc => splitlinesAux t (c :: acc)

/-- Python `s.splitlines()`. -/
def pySplitlines (s : String) : List String := splitlinesAux s.data []

/-- Match a literal character sequence at the head; return the remainder. -/
def dropLit : List Char → List Char → Option (List Char)
  | [], s => some s
  | _, [] => none
  | p :: ps, c :: cs => if c = p then dropLit ps cs else none

/-- Model of `re.search`: try the matcher at every start position, first hit wins. -/
def reSearch (m : List Char → Option (List Char)) : List Char → Option (List Char)
  | [] => m []
  | c :: t =>
    match m (c :: t) with
    | some r => some r
    | none => reSearch m t

/-- Character class `[0-9a-fA-F]` of the key-id regex. -/
def isHexDigitPy (c : Char) : Bool :=
  ('0' ≤ c && c ≤ '9') || ('a' ≤ c && c ≤ 'f') || ('A' ≤ c && c ≤ 'F')

/-- Character class `[A-Za-z0-9+/=]` of the pssh regex. -/
def isB64Char (c : Char) : Bool :=
  c.isAlpha || c.isDigit || c = '+' || c = '/' || c = '='

/-- Matcher for `KEYID=0x([0-9a-fA-F]+)` anchored at the current position. -/
def matchKeyId (s : List Char) : Option (List Char) :=
  match dropLit "KEYID=0x".data s with
  | none => none
  | some r =>
    let run := r.takeWhile isHexDigitPy
    if run.isEmpty then none else some run

/-- Matcher for `URI="data:text/plain;base64,([A-Za-z0-9+/=]+)"`. -/
def matchPssh (s : List Char) : Option (List Char) :=
  match dropLit "URI=\"data:text/plain;base64,".data s with
  | none => none
  | some r =>
    let run := r.takeWhile isB64Char
    if run.isEmpty then none
    else
      match r.drop run.length with
      | '"' :: _ => some run
      | _ => none

/-- Matcher for `EXT-X-MAP:URI="([^"]+)"`. -/
def matchInitUri (s : List Char) : Option (List Char) :=
  match dropLit "EXT-X-MAP:URI=\"".data s with
  | none => none
  | some r =>
    let run := r.takeWhile (· ≠ '"')
    if run.isEmpty then none
    else
      match r.drop run.length with
      | '"' :: _ => some run
      | _ => none

/-- The segment-URI scan of `fetch_stream_segments` (lines 177-185):
a `#EXTINF:` line arms a single-slot flag; the next non-comment,
non-blank line is captured (stripped) and the flag is reset. -/
def scanLines : List String → Bool → List String
  | [], _ => []
  | l :: ls, after =>
    if pyStartswith (pyStrip l) "#EXTINF:" then scanLines ls true
    else if after && !(pyStrip l == "") && !(pyStartswith (pyStrip l) "#") then
      pyStrip l :: scanLines ls false
    else scanLines ls after

/-- The structured result of `fetch_stream_segments`. -/
structure StreamManifest where
  key_id : String
  pssh_b64 : Option String
  init_uri : String
  segment_uris : List String
deriving DecidableEq, Repr

/-- The pure parsing part of `fetch_stream_segments` (lines 168-195),
applied to the fetched manifest text. -/
def parse_manifest (song_id manifest : String) : Except PyErr StreamManifest :=
  let key_id :=
    match reSearch matchKeyId manifest.data with
    | some h => pyLower ⟨h⟩
    | none => ⟨song_id.data.filter (· ≠ '-')⟩
  let pssh_b64 := (reSearch matchPssh manifest.data).map (fun r => (⟨r⟩ : String))
  let init_uri :=
    match reSearch matchInitUri manifest.data with
    | some u => (⟨u⟩ : String)
    | none => pyConcat (pyConcat "/api/v2/audio-stream/content/" song_id) "/init.mp4"
  let segment_uris := scanLines (pySplitlines manifest) false
  if segment_uris.isEmpty then Except.error PyErr.manifestError
  else Except.ok ⟨key_id, pssh_b64, init_uri, segment_uris⟩

/-- Outcome of an HTTP GET returning text: `ok` is whether
`raise_for_status` passes, `text` the body. -/
structure TextResponse where
  ok : Bool
  text : String
deriving DecidableEq, Repr

/-- Embedding of `fetch_stream_segments` (lines 162-195): fetch the manifest
(`none` models a transport exception, `ok = false` an HTTP error
raised by `raise_for_status`), then parse it. -/
def fetch_stream_segments (mres : Option TextResponse) (song_id : String) :
    Except PyErr StreamManifest :=
  match mres with
  | none => Except.error PyErr.transportError
  | some r =>
    if !r.ok then Except.error PyErr.httpError
    else parse_manifest song_id r.text

/-- Embedding of `resolve_stream_uri` (lines 198-203). -/
def resolve_stream_uri (uri : String) : String :=
  if pyStartswith uri "http://" || pyStartswith uri "https://" then uri
  else if pyStartswith uri "/" then pyConcat "https://stream.udio.com" uri
  else pyConcat "https://stream.udio.com/" uri

/-- A key record in the parsed license response: `key.type` (as a string),
`key.kid.hex` and `key.key.hex()`. -/
structure WvKey where
  typ : String
  kid : String
  keyHex : String
deriving DecidableEq, Repr

/-- Outcomes of the external calls made by `obtain_content_key`:
whether `PSSH(pssh_b64)`, `cdm.get_license_challenge`, the license POST
(including `raise_for_status`) and `cdm.parse_license` succeed, and the
keys `cdm.get_keys` then yields. -/
structure CdmEnv where
  psshOk : Bool
  challengeOk : Bool
  postOk : Bool
  parseOk : Bool
  keys : List WvKey
deriving DecidableEq, Repr

/-- The key-selection loop of `obtain_content_key` (lines 263-277),
returning the result together with the number of `cdm.close` calls made
from the loop onwards (the final `cdm.close` at line 274 included).
The terminal `if content_key:` at line 275 is a Python truthiness test:
it falls through to the no-content-key raise not only when no content
key was recorded (`None`) but also when the recorded fallback key hex is
the empty string. -/
def keyLoop (key_id : String) : List WvKey → Option String → Except PyErr String × Nat
  | [], acc =>
    match acc with
    | some k =>
      if k == "" then (Except.error PyErr.noContentKey, 1) else (Except.ok k, 1)
    | none => (Except.error PyErr.noContentKey, 1)
  | k :: rest, acc =>
    if k.typ == "CONTENT" then
      if k.kid == key_id then (Except.ok k.keyHex, 1)
      else keyLoop key_id rest (if acc.isNone then some k.keyHex else acc)
    else keyLoop key_id rest acc

/-- Embedding of `obtain_content_key` (lines 241-277).  The session is opened before
any of the fallible steps; the returned `Nat` counts how many times
`cdm.close` is invoked on that session before the function returns or
propagates an exception.  No step is wrapped in try/finally in the
source, so an exception raised by PSSH parsing, challenge generation,
the license exchange or license parsing leaves the session unclosed. -/
def obtain_content_key (env : CdmEnv) (key_id : String) : Except PyErr String × Nat :=
  if !env.psshOk then (Except.error PyErr.psshError, 0)
  else if !env.challengeOk then (Except.error PyErr.challengeError, 0)
  else if !env.postOk then (Except.error PyErr.httpError, 0)
  else if !env.parseOk then (Except.error PyErr.parseError, 0)
  else keyLoop key_id env.keys none

/-- Outcome of the direct-MP3 GET: either the request itself raises
(transport failure) or it returns a status code. -/
inductive DirectResult where
  | transportRaise
  | status (code : Nat)
deriving DecidableEq, Repr

/-- Embedding of `try_download_mp3` (lines 137-154): `ok false` on 403/404, an
exception on other `raise_for_status` failures, `ok true` after writing
and renaming the file. -/
def try_download_mp3 (res : DirectResult) : Except PyErr Bool :=
  match res with
  | DirectResult.transportRaise => Except.error PyErr.transportError
  | DirectResult.status code =>
    if code = 403 ∨ code = 404 then Except.ok false
    else if 400 ≤ code ∧ code < 600 then Except.error PyErr.httpError
    else Except.ok true

/-- Where `main` goes after the direct-MP3 attempt. -/
inductive Route where
  | done
  | protectedPipeline
  | fatalExit
deriving DecidableEq, Repr

/-- Substring test used by `detect_platform` (lines 33-37). -/
def containsAux (sub : List Char) : List Char → Bool
  | [] => sub.isPrefixOf []
  | c :: t => sub.isPrefixOf (c :: t) || containsAux sub t

/-- Embedding of `detect_platform` (lines 33-37). -/
def detect_platform (url : String) : String :=
  if containsAux "suno.com".data url.data then "suno" else "other"

/-- The routing `main` performs around the direct-MP3 attempt
(lines 384-395): a `False` return falls through, and the
`except Exception` handler catches every exception from the attempt and
also falls through; then suno runs exit fatally while other runs enter
the protected pipeline. -/
def main_direct_route (platform : String) (res : DirectResult) : Route :=
  match try_download_mp3 res with
  | Except.ok true => Route.done
  | Except.ok false =>
    if platform == "suno" then Route.fatalExit else Route.protectedPipeline
  | Except.error _ =>
    if platform == "suno" then Route.fatalExit else Route.protectedPipeline

/-- Outcome of an HTTP GET returning bytes: `ok` is the
`raise_for_status` verdict, `content` the body bytes. -/
structure FetchResponse where
  ok : Bool
  content : List Nat
deriving DecidableEq, Repr

/-- External-world outcomes for one `download_drm_stream` run: the
manifest fetch, a map from resolved URL to segment-GET outcome
(`none` = transport exception), and ffmpeg's exit code. -/
structure DrmEnv where
  manifestRes : Option TextResponse
  get : String → Option FetchResponse
  ffmpegRc : Int

/-- Observable file-system state of one `download_drm_stream` run:
whether the temporary encrypted file was created, the bytes written to
it, whether it was unlinked, and whether ffmpeg was invoked. -/
structure DrmState where
  tempCreated : Bool
  tempBytes : List Nat
  tempRemoved : Bool
  ffmpegInvoked : Bool
deriving DecidableEq, Repr

/-- Lowercase-hex test used by the key validation (`c in "0123456789abcdef"`). -/
def isLowerHex (c : Char) : Bool :=
  ('0' ≤ c && c ≤ '9') || ('a' ≤ c && c ≤ 'f')

/-- Normalization `key_hex.strip().lower()` (line 286). -/
def normalizeKey (k : String) : String := pyLower (pyStrip k)

/-- The key validation of line 287: exactly 32 characters, all lowercase hex. -/
def validKey (k : String) : Bool :=
  k.data.length == 32 && k.data.all isLowerHex

/-- The media-segment loop of `download_drm_stream` (lines 307-311):
GET each resolved URI, `raise_for_status`, append bytes.  Returns the
first raised error (if any) and the bytes written to the temp file. -/
def segLoop (get : String → Option FetchResponse) :
    List String → List Nat → Option PyErr × List Nat
  | [], acc => (none, acc)
  | u :: rest, acc =>
    match get (resolve_stream_uri u) with
    | none => (some PyErr.transportError, acc)
    | some r =>
      if !r.ok then (some PyErr.httpError, acc)
      else segLoop get rest (acc ++ r.content)

/-- Embedding of `download_drm_stream` (lines 285-332).  The temp file is created
before the init fetch; the init GET's status is never checked and its
body is written unconditionally; a failure inside the download block
propagates without reaching the try/finally that unlinks the temp file,
so `tempRemoved` stays false on those paths. -/
def download_drm_stream (env : DrmEnv) (song_id key_hex : String) :
    Except PyErr Unit × DrmState :=
  let key := normalizeKey key_hex
  if !validKey key then
    (Except.error PyErr.invalidKeyFormat, ⟨false, [], false, false⟩)
  else
    match fetch_stream_segments env.manifestRes song_id with
    | Except.error e => (Except.error e, ⟨false, [], false, false⟩)
    | Except.ok segs =>
      match env.get (resolve_stream_uri segs.init_uri) with
      | none => (Except.error PyErr.transportError, ⟨true, [], false, false⟩)
      | some initR =>
        match segLoop env.get segs.segment_uris initR.content with
        | (some e, bytes) => (Except.error e, ⟨true, bytes, false, false⟩)
        | (none, bytes) =>
          if env.ffmpegRc = 0 then (Except.ok (), ⟨true, bytes, true, true⟩)
          else (Except.error PyErr.decryptionFailed, ⟨true, bytes, true, true⟩)

/-- All-zero 32-hex key used in concrete runs. -/
def key0 : String := "00000000000000000000000000000000"

/-- Environment in which the single media segment answers with a
non-success HTTP status. -/
def envSegFail : DrmEnv where
  manifestRes := some ⟨true, "#EXTM3U\n#EXTINF:1,\nseg1.m4s"⟩
  get := fun u =>
    if u == "https://stream.udio.com/api/v2/audio-stream/content/abc/init.mp4" then
      some ⟨true, [1, 2]⟩
    else if u == "https://stream.udio.com/seg1.m4s" then some ⟨false, [3]⟩
    else none
  ffmpegRc := 0

/-- Environment in which the init segment answers with a non-success
HTTP status but the media segment succeeds. -/
def envInitBad : DrmEnv where
  manifestRes := some ⟨true, "#EXTM3U\n#EXTINF:1,\nseg1.m4s"⟩
  get := fun u =>
    if u == "https://stream.udio.com/api/v2/audio-stream/content/abc/init.mp4" then
      some ⟨false, [9]⟩
    else if u == "https://stream.udio.com/seg1.m4s" then some ⟨true, [7]⟩
    else none
  ffmpegRc := 0

/-- Environment whose manifest fetch raises a transport error. -/
def envNoNet : DrmEnv where
  manifestRes := none
  get := fun _ => none
  ffmpegRc := 0

/-- A line announcing segment duration information (`#EXTINF:` after strip). -/
def isAnnounceLine (l : String) : Prop :=
  pyStartswith (pyStrip l) "#EXTINF:" = true

/-- A comment or blank line: blank after strip, or a `#` comment that is
not itself a segment-duration announcement. -/
def isFillerLine (l : String) : Prop :=
  pyStrip l = "" ∨
    (pyStartswith (pyStrip l) "#" = true ∧ pyStartswith (pyStrip l) "#EXTINF:" = false)

/-- A non-comment, non-blank line (a segment URI candidate). -/
def isUriLine (l : String) : Prop :=
  ¬ pyStrip l = "" ∧ pyStartswith (pyStrip l) "#" = false

/-- One announcement block of a manifest: the `#EXTINF:` line, interleaved
comment/blank lines, and the single URI line that follows. -/
structure SegBlock where
  ann : String
  mids : List String
  uri : String

/-- Well-formedness of a block. -/
def SegBlock.wf (b : SegBlock) : Prop :=
  isAnnounceLine b.ann ∧ (∀ m ∈ b.mids, isFillerLine m) ∧ isUriLine b.uri

/-- The document lines contributed by a block. -/
def SegBlock.lines (b : SegBlock) : List String := b.ann :: b.mids ++ [b.uri]

instance (l : String) : Decidable (isAnnounceLine l) := by
  unfold isAnnounceLine; infer_instance

instance (l : String) : Decidable (isFillerLine l) := by
  unfold isFillerLine; infer_instance

instance (l : String) : Decidable (isUriLine l) := by
  unfold isUriLine; infer_instance

instance (b : SegBlock) : Decidable (SegBlock.wf b) := by
  unfold SegBlock.wf; infer_instance

/-- Bytes accumulated in the temp file after successfully fetching the
given media segments, starting from `acc` (the init bytes). -/
def segBytesUpTo (get : String → Option FetchResponse) :
    List String → List Nat → List Nat
  | [], acc => acc
  | u :: us, acc =>
    segBytesUpTo get us (acc ++ ((get (resolve_stream_uri u)).getD ⟨true, []⟩).content)

/-- Key-negotiation environment with two content keys and one signing key. -/
def cdmEnvSel : CdmEnv :=
  ⟨true, true, true, true,
    [⟨"SIGNING", "aa", "s1"⟩, ⟨"CONTENT", "bb", "k2"⟩, ⟨"CONTENT", "cc", "k3"⟩]⟩

/-- Environment with two media segments of which the second answers with
a non-success HTTP status. -/
def envTwoSegs : DrmEnv where
  manifestRes := some ⟨true, "#EXTM3U\n#EXTINF:1,\nsegA.m4s\n#EXTINF:1,\nsegB.m4s"⟩
  get := fun u =>
    if u == "https://stream.udio.com/api/v2/audio-stream/content/abc/init.mp4" then
      some ⟨true, [1]⟩
    else if u == "https://stream.udio.com/segA.m4s" then some ⟨true, [5]⟩
    else if u == "https://stream.udio.com/segB.m4s" then some ⟨false, [6]⟩
    else none
  ffmpegRc := 0

theorem isPrefixOf_append_left (p : List Char) :
    ∀ (a u : List Char), p.isPrefixOf a = true → p.isPrefixOf (a ++ u) = true := by
  induction p with
  | nil => intro a u _; simp [List.isPrefixOf]
  | cons c cs ih =>
    intro a u h
    cases a with
    | nil => simp [List.isPrefixOf] at h
    | cons b bs =>
      simp only [List.cons_append, List.isPrefixOf, Bool.and_eq_true] at h ⊢
      exact ⟨h.1, ih bs u h.2⟩

theorem pyStartswith_hash (s : String) (h : pyStartswith s "#EXTINF:" = true) :
    pyStartswith s "#" = true := by
  have h2 : List.isPrefixOf ('#' :: "EXTINF:".data) s.data = true := h
  show List.isPrefixOf ['#'] s.data = true
  cases hs : s.data with
  | nil => rw [hs] at h2; simp [List.isPrefixOf] at h2
  | cons b bs =>
    rw [hs] at h2
    simp only [List.isPrefixOf, Bool.and_eq_true] at h2 ⊢
    exact ⟨h2.1, by simp [List.isPrefixOf]⟩

theorem scanLines_filler (l : String) (h : isFillerLine l) (ls : List String) (a : Bool) :
    scanLines (l :: ls) a = scanLines ls a := by
  rcases h with h0 | ⟨h1, h2⟩
  · simp only [scanLines, h0]
    simp [(by decide : pyStartswith "" "#EXTINF:" = false),
      (by decide : pyStartswith "" "#" = false)]
  · simp [scanLines, h1, h2]

theorem scanLines_fillers (fs : List String) (h : ∀ l ∈ fs, isFillerLine l)
    (ls : List String) (a : Bool) : scanLines (fs ++ ls) a = scanLines ls a := by
  induction fs with
  | nil => rfl
  | cons f fs ih =>
    rw [List.cons_append, scanLines_filler f (h f (List.mem_cons_self f fs)) _ a]
    exact ih (fun l hl => h l (List.mem_cons_of_mem f hl))

theorem scanLines_ann (l : String) (h : isAnnounceLine l) (ls : List String) (a : Bool) :
    scanLines (l :: ls) a = scanLines ls true := by
  have h' : pyStartswith (pyStrip l) "#EXTINF:" = true := h
  simp [scanLines, h']

theorem isUriLine_not_extinf (l : String) (h : isUriLine l) :
    pyStartswith (pyStrip l) "#EXTINF:" = false := by
  by_contra hc
  rw [Bool.not_eq_false] at hc
  have := pyStartswith_hash _ hc
  rw [h.2] at this
  exact Bool.false_ne_true this

theorem scanLines_uri_armed (l : String) (h : isUriLine l) (ls : List String) :
    scanLines (l :: ls) true = pyStrip l :: scanLines ls false := by
  simp [scanLines, isUriLine_not_extinf l h, h.1, h.2]

theorem scanLines_uri_unarmed (l : String) (h : isUriLine l) (ls : List String) :
    scanLines (l :: ls) false = scanLines ls false := by
  simp [scanLines, isUriLine_not_extinf l h]

theorem scanLines_block (b : SegBlock) (hb : SegBlock.wf b) (ls : List String) :
    scanLines (SegBlock.lines b ++ ls) false = pyStrip b.uri :: scanLines ls false := by
  obtain ⟨ha, hm, hu⟩ := hb
  show scanLines ((b.ann :: (b.mids ++ [b.uri])) ++ ls) false = _
  rw [List.cons_append, scanLines_ann _ ha, List.append_assoc,
    scanLines_fillers _ hm, List.singleton_append]
  exact scanLines_uri_armed _ hu _

theorem scanLines_blocks (bs : List SegBlock) (h : ∀ b ∈ bs, SegBlock.wf b)
    (ls : List String) :
    scanLines ((bs.map SegBlock.lines).flatten ++ ls) false
      = bs.map (fun b => pyStrip b.uri) ++ scanLines ls false := by
  induction bs with
  | nil => simp
  | cons b bs ih =>
    rw [List.map_cons, List.flatten_cons, List.append_assoc,
      scanLines_block b (h b (List.mem_cons_self b bs)),
      ih (fun x hx => h x (List.mem_cons_of_mem b hx)), List.map_cons, List.cons_append]

theorem scanLines_anns (anns : List String) (h : ∀ a ∈ anns, isAnnounceLine a) :
    ∀ (_ : anns ≠ []) (ls : List String) (a : Bool),
      scanLines (anns ++ ls) a = scanLines ls true := by
  induction anns with
  | nil => intro hn; exact absurd rfl hn
  | cons x xs ih =>
    intro _ ls a
    rw [List.cons_append, scanLines_ann x (h x (List.mem_cons_self x xs))]
    cases xs with
    | nil => rfl
    | cons y ys =>
      exact ih (fun b hb => h b (List.mem_cons_of_mem x hb)) (by simp) ls true

/-- C4: a manifest of `N` announcement blocks — each an `#EXTINF:` line
followed, possibly after interleaved comment/blank lines, by exactly one
non-comment non-blank URI line — scans to exactly the `N` stripped URIs
in document order. -/
theorem scan_segments_blocks (pre post : List String) (bs : List SegBlock)
    (hpre : ∀ l ∈ pre, isFillerLine l) (hpost : ∀ l ∈ post, isFillerLine l)
    (hbs : ∀ b ∈ bs, SegBlock.wf b) :
    scanLines (pre ++ (bs.map SegBlock.lines).flatten ++ post) false
        = bs.map (fun b => pyStrip b.uri) ∧
      (scanLines (pre ++ (bs.map SegBlock.lines).flatten ++ post) false).length
        = bs.length := by
  have h1 : scanLines (pre ++ (bs.map SegBlock.lines).flatten ++ post) false
      = bs.map (fun b => pyStrip b.uri) := by
    rw [List.append_assoc, scanLines_fillers pre hpre, scanLines_blocks bs hbs]
    have : scanLines post false = [] := by
      have := scanLines_fillers post hpost [] false
      simpa using this
    rw [this, List.append_nil]
  exact ⟨h1, by rw [h1, List.length_map]⟩

/-- C4 witness at a concrete manifest with two blocks. -/
theorem scan_segments_blocks_witness :
    scanLines ["#EXTM3U", "#EXTINF:9.1,", "# c", "segA.m4s", "#EXTINF:8.2,", " segB.m4s ", ""]
        false = ["segA.m4s", "segB.m4s"] := by
  have h := scan_segments_blocks ["#EXTM3U"] [""]
    [⟨"#EXTINF:9.1,", ["# c"], "segA.m4s"⟩, ⟨"#EXTINF:8.2,", [], " segB.m4s "⟩]
    (by decide) (by decide) (by decide)
  simpa using h.1

/-- C10: (i) `k ≥ 2` consecutive announcement lines with no URI between
them arm the single-slot flag without stacking: the next URI line is
captured exactly once and scanning resumes unarmed; (ii) a URI line with
no announcement since the last capture is never captured. -/
theorem consecutive_announcements_spec :
    (∀ (anns mids : List String) (uri : String) (rest : List String),
        2 ≤ anns.length → (∀ a ∈ anns, isAnnounceLine a) →
        (∀ m ∈ mids, isFillerLine m) → isUriLine uri →
        scanLines (anns ++ (mids ++ uri :: rest)) false
          = pyStrip uri :: scanLines rest false) ∧
    (∀ (uri : String) (rest : List String), isUriLine uri →
        scanLines (uri :: rest) false = scanLines rest false) := by
  constructor
  · intro anns mids uri rest hlen hann hmid huri
    have hne : anns ≠ [] := by
      intro h0
      rw [h0] at hlen
      simp at hlen
    rw [scanLines_anns anns hann hne, scanLines_fillers mids hmid]
    exact scanLines_uri_armed uri huri rest
  · exact fun uri rest h => scanLines_uri_unarmed uri h rest

/-- C10 witness: two consecutive announcements capture the next URI once,
and a URI with no preceding announcement is not captured. -/
theorem consecutive_announcements_spec_witness :
    scanLines ["#EXTINF:1,", "#EXTINF:2,", "seg.m4s"] false = ["seg.m4s"] ∧
      scanLines ["stray.m4s"] false = [] := by
  constructor
  · have h := consecutive_announcements_spec.1 ["#EXTINF:1,", "#EXTINF:2,"] [] "seg.m4s" []
      (by decide) (by decide) (by decide) (by decide)
    simpa using h
  · have h := consecutive_announcements_spec.2 "stray.m4s" [] (by decide)
    simpa using h

theorem parse_manifest_segs (sid m : String) :
    (parse_manifest sid m = Except.error PyErr.manifestError ↔
        scanLines (pySplitlines m) false = []) ∧
    (∀ M, parse_manifest sid m = Except.ok M →
        M.segment_uris = scanLines (pySplitlines m) false ∧ M.segment_uris ≠ []) := by
  cases h : scanLines (pySplitlines m) false with
  | nil =>
    constructor
    · simp [parse_manifest, h]
    · intro M hM
      simp [parse_manifest, h] at hM
  | cons x xs =>
    constructor
    · simp [parse_manifest, h]
    · intro M hM
      simp [parse_manifest, h] at hM
      rw [← hM]
      exact ⟨rfl, by simp⟩

/-- C5: manifest resolution never returns a `StreamManifest` whose
media-segment list is empty; when the scan over the fetched document
finds zero segment URIs it fails with the manifest error. -/
theorem fetch_stream_segments_nonempty (mres : Option TextResponse) (sid : String) :
    (∀ M, fetch_stream_segments mres sid = Except.ok M → M.segment_uris ≠ []) ∧
    (∀ r, mres = some r → r.ok = true →
        scanLines (pySplitlines r.text) false = [] →
        fetch_stream_segments mres sid = Except.error PyErr.manifestError) := by
  constructor
  · intro M hM
    cases mres with
    | none => simp [fetch_stream_segments] at hM
    | some r =>
      by_cases hok : r.ok = true
      · rw [show fetch_stream_segments (some r) sid = parse_manifest sid r.text by
          simp [fetch_stream_segments, hok]] at hM
        exact ((parse_manifest_segs sid r.text).2 M hM).2
      · rw [Bool.not_eq_true] at hok
        simp [fetch_stream_segments, hok] at hM
  · intro r hr hok hscan
    subst hr
    simp [fetch_stream_segments, hok]
    exact (parse_manifest_segs sid r.text).1.mpr hscan

/-- C5 witness: a manifest with zero segment URIs yields the manifest error. -/
theorem fetch_stream_segments_nonempty_witness :
    fetch_stream_segments (some ⟨true, "#EXTM3U"⟩) "abc"
      = Except.error PyErr.manifestError := by
  exact (fetch_stream_segments_nonempty (some ⟨true, "#EXTM3U"⟩) "abc").2
    ⟨true, "#EXTM3U"⟩ rfl rfl (by decide)

/-- C6: stream-URI resolution returns absolute URIs unchanged (hence is
idempotent), prefixes root-relative URIs with the origin scheme+host,
and prefixes bare relative URIs with the origin root and a separator. -/
theorem resolve_stream_uri_spec (u : String) :
    (pyStartswith u "http://" = true ∨ pyStartswith u "https://" = true →
        resolve_stream_uri u = u) ∧
    (pyStartswith u "http://" = false → pyStartswith u "https://" = false →
      pyStartswith u "/" = true →
        resolve_stream_uri u = pyConcat "https://stream.udio.com" u) ∧
    (pyStartswith u "http://" = false → pyStartswith u "https://" = false →
      pyStartswith u "/" = false →
        resolve_stream_uri u = pyConcat "https://stream.udio.com/" u) ∧
    resolve_stream_uri (resolve_stream_uri u) = resolve_stream_uri u := by
  have habs1 : ∀ v : String, pyStartswith (pyConcat "https://stream.udio.com" v) "https://" = true := by
    intro v
    exact isPrefixOf_append_left "https://".data "https://stream.udio.com".data v.data
      (by decide)
  have habs2 : ∀ v : String, pyStartswith (pyConcat "https://stream.udio.com/" v) "https://" = true := by
    intro v
    exact isPrefixOf_append_left "https://".data "https://stream.udio.com/".data v.data
      (by decide)
  refine ⟨?_, ?_, ?_, ?_⟩
  · intro h
    rcases h with h | h <;> simp [resolve_stream_uri, h]
  · intro h1 h2 h3
    simp [resolve_stream_uri, h1, h2, h3]
  · intro h1 h2 h3
    simp [resolve_stream_uri, h1, h2, h3]
  · by_cases h1 : pyStartswith u "http://" = true
    · simp [resolve_stream_uri, h1]
    · by_cases h2 : pyStartswith u "https://" = true
      · simp [resolve_stream_uri, h2]
      · rw [Bool.not_eq_true] at h1 h2
        by_cases h3 : pyStartswith u "/" = true
        · have hr : resolve_stream_uri u = pyConcat "https://stream.udio.com" u := by
            simp [resolve_stream_uri, h1, h2, h3]
          rw [hr]
          simp [resolve_stream_uri, habs1 u]
        · rw [Bool.not_eq_true] at h3
          have hr : resolve_stream_uri u = pyConcat "https://stream.udio.com/" u := by
            simp [resolve_stream_uri, h1, h2, h3]
          rw [hr]
          simp [resolve_stream_uri, habs2 u]

/-- C6 witness at concrete absolute, root-relative and bare URIs. -/
theorem resolve_stream_uri_spec_witness :
    resolve_stream_uri "https://a/b" = "https://a/b" ∧
      resolve_stream_uri "/p" = "https://stream.udio.com/p" ∧
      resolve_stream_uri "p" = "https://stream.udio.com/p" ∧
      resolve_stream_uri (resolve_stream_uri "p") = resolve_stream_uri "p" := by
  refine ⟨(resolve_stream_uri_spec "https://a/b").1 (Or.inr (by decide)), ?_, ?_,
    (resolve_stream_uri_spec "p").2.2.2⟩
  · have h := (resolve_stream_uri_spec "/p").2.1 (by decide) (by decide) (by decide)
    exact h.trans (by decide)
  · have h := (resolve_stream_uri_spec "p").2.2.1 (by decide) (by decide) (by decide)
    exact h.trans (by decide)

theorem keyLoop_eq (key_id : String) (keys : List WvKey) :
    ∀ acc : Option String,
      keyLoop key_id keys acc =
        match (keys.filter (fun k => k.typ == "CONTENT")).find?
            (fun k => k.kid == key_id) with
        | some k => (Except.ok k.keyHex, 1)
        | none =>
          match acc with
          | some a =>
            (if a == "" then Except.error PyErr.noContentKey else Except.ok a, 1)
          | none =>
            match (keys.filter (fun k => k.typ == "CONTENT")).head? with
            | some k =>
              (if k.keyHex == "" then Except.error PyErr.noContentKey
                else Except.ok k.keyHex, 1)
            | none => (Except.error PyErr.noContentKey, 1) := by
  induction keys with
  | nil =>
    intro acc
    cases acc with
    | none => rfl
    | some a => by_cases ha : (a == "") = true <;> simp [keyLoop, ha]
  | cons k ks ih =>
    intro acc
    by_cases hc : (k.typ == "CONTENT") = true
    · by_cases hk : (k.kid == key_id) = true
      · simp [keyLoop, hc, hk, List.filter_cons, List.find?_cons]
      · cases acc with
        | none =>
          simp [keyLoop, hc, hk, List.filter_cons, List.find?_cons, ih]
        | some a =>
          simp [keyLoop, hc, hk, List.filter_cons, List.find?_cons, ih]
    · simp [keyLoop, hc, List.filter_cons, ih]

/-- C3 amended: with a successful exchange, the negotiator returns the
content key whose identifier matches the manifest key id when one
exists; otherwise it returns the first content key in response order
provided that key's hex string is non-empty; it fails with the
no-content-key error when the response yields no content keys OR when
the recorded first content key's hex is the empty string (the source's
terminal `if content_key:` is a truthiness test); keys not tagged
CONTENT are never returned. -/
theorem obtain_content_key_selection (env : CdmEnv) (key_id : String)
    (h1 : env.psshOk = true) (h2 : env.challengeOk = true)
    (h3 : env.postOk = true) (h4 : env.parseOk = true) :
    (obtain_content_key env key_id).1 =
      match (env.keys.filter (fun k => k.typ == "CONTENT")).find?
          (fun k => k.kid == key_id) with
      | some k => Except.ok k.keyHex
      | none =>
        match (env.keys.filter (fun k => k.typ == "CONTENT")).head? with
        | some k =>
          if k.keyHex == "" then Except.error PyErr.noContentKey
          else Except.ok k.keyHex
        | none => Except.error PyErr.noContentKey := by
  unfold obtain_content_key
  rw [h1, h2, h3, h4]
  simp only [Bool.not_true, Bool.false_eq_true, if_false]
  rw [keyLoop_eq key_id env.keys none]
  cases hf : (env.keys.filter (fun k => k.typ == "CONTENT")).find?
      (fun k => k.kid == key_id) with
  | some k => simp
  | none =>
    cases hh : (env.keys.filter (fun k => k.typ == "CONTENT")).head? with
    | some k => simp
    | none => simp

/-- C3-amended witness: exact-match selection and first-content fallback
on a concrete license response. -/
theorem obtain_content_key_selection_witness :
    (obtain_content_key cdmEnvSel "cc").1 = Except.ok "k3" ∧
      (obtain_content_key cdmEnvSel "zz").1 = Except.ok "k2" := by
  constructor
  · have h := obtain_content_key_selection cdmEnvSel "cc" rfl rfl rfl rfl
    exact h
  · have h := obtain_content_key_selection cdmEnvSel "zz" rfl rfl rfl rfl
    exact h

/-- C3 counterexample: a license response yielding exactly one content
key whose key hex is the empty string, with a non-matching manifest key
id, makes `obtain_content_key` raise the no-content-key error instead
of returning that first content key — the truthiness test
`if content_key:` treats the recorded empty-string fallback as absent. -/
theorem empty_content_key_counterexample :
    (obtain_content_key ⟨true, true, true, true, [⟨"CONTENT", "aa", ""⟩]⟩ "zz").1
        = Except.error PyErr.noContentKey ∧
      (([⟨"CONTENT", "aa", ""⟩] : List WvKey).filter
          (fun k => k.typ == "CONTENT")).length = 1 :=
  ⟨rfl, rfl⟩

/-- C1: the session opened by `obtain_content_key` is NOT closed when the
license exchange or the response parsing raises: on those exit paths the
close-call count is 0, not 1 (the source has no try/finally), while the
happy path closes exactly once. -/
theorem obtain_content_key_close_bug :
    obtain_content_key ⟨true, true, true, false, [⟨"CONTENT", "ab", "k1"⟩]⟩ "ab"
        = (Except.error PyErr.parseError, 0) ∧
      obtain_content_key ⟨true, true, false, true, [⟨"CONTENT", "ab", "k1"⟩]⟩ "ab"
        = (Except.error PyErr.httpError, 0) ∧
      obtain_content_key ⟨true, true, true, true, [⟨"CONTENT", "ab", "k1"⟩]⟩ "ab"
        = (Except.ok "k1", 1) := ⟨rfl, rfl, rfl⟩

theorem fetch_no_invalidKey (mres : Option TextResponse) (sid : String) :
    fetch_stream_segments mres sid ≠ Except.error PyErr.invalidKeyFormat := by
  cases mres with
  | none => simp [fetch_stream_segments]
  | some r =>
    by_cases hok : r.ok = true
    · rw [show fetch_stream_segments (some r) sid = parse_manifest sid r.text by
        simp [fetch_stream_segments, hok]]
      cases h : scanLines (pySplitlines r.text) false with
      | nil => simp [parse_manifest, h]
      | cons x xs => simp [parse_manifest, h]
    · rw [Bool.not_eq_true] at hok
      simp [fetch_stream_segments, hok]

theorem segLoop_no_invalidKey (get : String → Option FetchResponse) :
    ∀ (us : List String) (acc : List Nat) (e : PyErr) (bytes : List Nat),
      segLoop get us acc = (some e, bytes) → e ≠ PyErr.invalidKeyFormat := by
  intro us
  induction us with
  | nil => intro acc e bytes h; simp [segLoop] at h
  | cons u rest ih =>
    intro acc e bytes h
    cases hg : get (resolve_stream_uri u) with
    | none =>
      simp [segLoop, hg] at h
      simp [← h.1]
    | some r =>
      by_cases hro : r.ok = true
      · simp [segLoop, hg, hro] at h
        exact ih (acc ++ r.content) e bytes h
      · rw [Bool.not_eq_true] at hro
        simp [segLoop, hg, hro] at h
        simp [← h.1]

/-- C7 counterexample: the key string of 32 zeros followed by a space is
not exactly 32 hex characters, yet no invalid-key-format error is
raised (the code strips whitespace before validating), so the stated
"if and only if" fails. -/
theorem key_validation_strip_counterexample :
    (download_drm_stream envNoNet "abc" "00000000000000000000000000000000 ").1
        ≠ Except.error PyErr.invalidKeyFormat ∧
      ¬ ("00000000000000000000000000000000 ".data.length = 32 ∧
          ∀ c ∈ "00000000000000000000000000000000 ".data, isHexDigitPy c = true) := by
  constructor
  · have hval : download_drm_stream envNoNet "abc" "00000000000000000000000000000000 "
        = (Except.error PyErr.transportError, ⟨false, [], false, false⟩) := rfl
    rw [hval]
    simp
  · decide

/-- C7 amended: the invalid-key-format error is raised, and the external
engine left uninvoked, if and only if the key is not exactly 32
lowercase hex characters after stripping surrounding whitespace and
lowercasing (so uppercase hex and whitespace-padded keys are accepted). -/
theorem download_key_validation (env : DrmEnv) (sid key : String) :
    (validKey (normalizeKey key) = false →
        download_drm_stream env sid key
          = (Except.error PyErr.invalidKeyFormat, ⟨false, [], false, false⟩)) ∧
    (validKey (normalizeKey key) = true →
        (download_drm_stream env sid key).1 ≠ Except.error PyErr.invalidKeyFormat) := by
  constructor
  · intro h
    simp [download_drm_stream, h]
  · intro h
    simp only [download_drm_stream, h, Bool.not_true, Bool.false_eq_true, if_false]
    cases hf : fetch_stream_segments env.manifestRes sid with
    | error e =>
      intro hcontra
      have he : e = PyErr.invalidKeyFormat := by simpa using hcontra
      exact fetch_no_invalidKey env.manifestRes sid (by rw [hf, he])
    | ok segs =>
      cases hi : env.get (resolve_stream_uri segs.init_uri) with
      | none => simp [hi]
      | some initR =>
        rcases hl : segLoop env.get segs.segment_uris initR.content with ⟨oe, bytes⟩
        cases oe with
        | none =>
          by_cases hrc : env.ffmpegRc = 0 <;> simp [hi, hl, hrc]
        | some e =>
          simp only [hi, hl]
          intro hcontra
          have he : e = PyErr.invalidKeyFormat := by simpa using hcontra
          exact segLoop_no_invalidKey env.get segs.segment_uris initR.content e bytes hl he

/-- C7-amended witness: a 3-character key is rejected before the engine
runs; a valid 32-hex key never produces the invalid-key error. -/
theorem download_key_validation_witness :
    download_drm_stream envNoNet "abc" "xyz"
        = (Except.error PyErr.invalidKeyFormat, ⟨false, [], false, false⟩) ∧
      (download_drm_stream envNoNet "abc" key0).1
        ≠ Except.error PyErr.invalidKeyFormat := by
  exact ⟨(download_key_validation envNoNet "abc" "xyz").1 (by decide),
    (download_key_validation envNoNet "abc" key0).2 (by decide)⟩

/-- C8 counterexample: a transport failure on the direct attempt does
NOT propagate as fatal on a non-suno run — `main` catches it and routes
into the protected pipeline; and on a suno run even a 404 answer is a
fatal exit rather than the protected-pipeline route. -/
theorem direct_transport_fallback_counterexample :
    main_direct_route "other" DirectResult.transportRaise = Route.protectedPipeline ∧
      main_direct_route "suno" (DirectResult.status 404) = Route.fatalExit :=
  ⟨rfl, rfl⟩

/-- C8 amended: on non-suno runs a 403/404 answer routes into the
protected pipeline, but so does every other direct-attempt failure
(transport or HTTP), because `main` catches all exceptions from the
attempt; on suno runs every failure is a fatal exit; a success status
finishes the run directly. -/
theorem direct_route_spec (code : Nat) (plat : String) :
    ((code = 403 ∨ code = 404) →
        main_direct_route "other" (DirectResult.status code) = Route.protectedPipeline ∧
          main_direct_route "suno" (DirectResult.status code) = Route.fatalExit) ∧
    (main_direct_route "other" DirectResult.transportRaise = Route.protectedPipeline ∧
      main_direct_route "suno" DirectResult.transportRaise = Route.fatalExit) ∧
    (400 ≤ code → code < 600 → ¬(code = 403 ∨ code = 404) →
        main_direct_route "other" (DirectResult.status code) = Route.protectedPipeline ∧
          main_direct_route "suno" (DirectResult.status code) = Route.fatalExit) ∧
    (¬(400 ≤ code ∧ code < 600) →
        main_direct_route plat (DirectResult.status code) = Route.done) := by
  refine ⟨?_, ⟨rfl, rfl⟩, ?_, ?_⟩
  · intro h
    constructor <;> simp [main_direct_route, try_download_mp3, h]
  · intro h1 h2 h3
    constructor <;> simp [main_direct_route, try_download_mp3, h1, h2, h3]
  · intro h
    have h34 : ¬(code = 403 ∨ code = 404) := by
      rintro (rfl | rfl) <;> exact h (by omega)
    simp [main_direct_route, try_download_mp3, h34, h]

/-- C8-amended witness at concrete statuses. -/
theorem direct_route_spec_witness :
    main_direct_route "other" (DirectResult.status 404) = Route.protectedPipeline ∧
      main_direct_route "other" (DirectResult.status 500) = Route.protectedPipeline ∧
      main_direct_route "suno" (DirectResult.status 200) = Route.done := by
  exact ⟨((direct_route_spec 404 "other").1 (Or.inr rfl)).1,
    ((direct_route_spec 500 "other").2.2.1 (by omega) (by omega) (by omega)).1,
    (direct_route_spec 200 "suno").2.2.2 (by omega)⟩

/-- C2: when the single media segment answers with a non-success status,
`download_drm_stream` propagates the error while the temporary encrypted
file has been created but is never removed — the unlink only guards the
ffmpeg stage, so the encrypted artifact leaks on fetch-failure exits. -/
theorem download_drm_stream_temp_leak :
    download_drm_stream envSegFail "abc" key0
      = (Except.error PyErr.httpError, ⟨true, [1, 2], false, false⟩) := rfl

/-- C9 counterexample: the init segment answers with a non-success HTTP
status, yet the run succeeds and the init response body is written into
the assembled output — the init fetch's status is never checked. -/
theorem init_segment_status_counterexample :
    download_drm_stream envInitBad "abc" key0
      = (Except.ok (), ⟨true, [9, 7], true, true⟩) := rfl

theorem segLoop_fail_at (get : String → Option FetchResponse) (bad : String)
    (r : FetchResponse) (hbad : get (resolve_stream_uri bad) = some r)
    (hok : r.ok = false) :
    ∀ (good rest : List String) (acc : List Nat),
      (∀ u ∈ good, ∃ s, get (resolve_stream_uri u) = some s ∧ s.ok = true) →
      segLoop get (good ++ bad :: rest) acc
        = (some PyErr.httpError, segBytesUpTo get good acc) := by
  intro good
  induction good with
  | nil =>
    intro rest acc _
    simp [segLoop, hbad, hok, segBytesUpTo]
  | cons u us ih =>
    intro rest acc hgood
    obtain ⟨s, hs, hsok⟩ := hgood u (List.mem_cons_self u us)
    rw [List.cons_append, segLoop, hs]
    simp only [hsok, Bool.not_true, Bool.false_eq_true, if_false]
    rw [show segBytesUpTo get (u :: us) acc
        = segBytesUpTo get us (acc ++ s.content) by
      simp [segBytesUpTo, hs]]
    exact ih rest (acc ++ s.content) (fun v hv => hgood v (List.mem_cons_of_mem u hv))

/-- C9 amended: a non-success response for any MEDIA segment is fatal to
the whole assembly and neither that segment's bytes nor any later
segment's bytes are written (only the init bytes and the successfully
fetched earlier media segments are); the init segment's response status,
however, is not checked and its body is written regardless. -/
theorem media_segment_fetch_fatal (env : DrmEnv) (sid key : String)
    (M : StreamManifest) (good : List String) (bad : String) (rest : List String)
    (r initR : FetchResponse)
    (hkey : validKey (normalizeKey key) = true)
    (hfetch : fetch_stream_segments env.manifestRes sid = Except.ok M)
    (hinit : env.get (resolve_stream_uri M.init_uri) = some initR)
    (hsegs : M.segment_uris = good ++ bad :: rest)
    (hgood : ∀ u ∈ good, ∃ s, env.get (resolve_stream_uri u) = some s ∧ s.ok = true)
    (hbad : env.get (resolve_stream_uri bad) = some r) (hr : r.ok = false) :
    download_drm_stream env sid key
      = (Except.error PyErr.httpError,
          ⟨true, segBytesUpTo env.get good initR.content, false, false⟩) := by
  have hfail := segLoop_fail_at env.get bad r hbad hr good rest initR.content hgood
  simp [download_drm_stream, hkey, hfetch, hinit, hsegs, hfail]

/-- C9-amended witness: of two media segments the second answers
non-success; the assembly aborts with only the init and first-segment
bytes written, and the temp file is left in place. -/
theorem media_segment_fetch_fatal_witness :
    download_drm_stream envTwoSegs "abc" key0
      = (Except.error PyErr.httpError, ⟨true, [1, 5], false, false⟩) := by
  have h := media_segment_fetch_fatal envTwoSegs "abc" key0
    ⟨"abc", none, "/api/v2/audio-stream/content/abc/init.mp4", ["segA.m4s", "segB.m4s"]⟩
    ["segA.m4s"] "segB.m4s" [] ⟨false, [6]⟩ ⟨true, [1]⟩
    (by decide) (by rfl) (by rfl) (by rfl)
    (by
      intro u hu
      rw [List.mem_singleton] at hu
      subst hu
      exact ⟨⟨true, [5]⟩, rfl, rfl⟩)
    (by rfl) (by rfl)
  simpa using h
